import Mathlib

/-!
Verification of the yeelight_controller session protocol engine
(src/yeelight_controller/device.py) against its specification.

The Python code is shallowly embedded:
* JSON values produced by json.loads are modeled by the inductive JVal,
  with JSON numbers restricted to integers (the device protocol only
  exchanges integer-valued numbers).
* Python exceptions are modeled by the Except monad over PyErr.
* One recvfrom result is modeled either at the byte level (for the
  chunk-splitting logic: lists of characters split on the CRLF
  delimiter, see split2 below) or, for the session logic, as the list
  of CRLF-separated segments together with the outcome json.loads has
  on each segment (RawSeg): an empty segment, a segment that is not
  valid JSON (json.loads raises json.JSONDecodeError), or a parsed
  value.
* The class-level message-id counter, the effect/duration settings and
  the device-state record of a LightBulb instance are threaded through
  as an explicit Session value; command methods map the prior session
  and the scripted socket events to an Except outcome, the error case
  being an uncaught Python exception.
* The on_notify / on_error callbacks are external observers that do not
  touch the device state; they are not modeled.
-/

/-- JSON values as returned by json.loads, numbers restricted to
integers (the protocol only carries integer numbers). -/
inductive JVal
  | null
  | b (v : Bool)
  | n (v : Int)
  | s (v : String)
  | arr (vs : List JVal)
  | obj (fields : List (String × JVal))

/-- Python exceptions that the embedded code can raise. -/
inductive PyErr
  | keyError (k : String)
  | indexError
  | valueError
  | typeError
  | jsonDecodeError
deriving DecidableEq

mutual

/-- Python equality test between two JSON values. -/
def jEqb : JVal → JVal → Bool
  | .null, .null => true
  | .b x, .b y => x == y
  | .n x, .n y => x == y
  | .s x, .s y => x == y
  | .arr xs, .arr ys => jListEqb xs ys
  | .obj xs, .obj ys => jPairsEqb xs ys
  | _, _ => false

/-- Python equality on lists of JSON values. -/
def jListEqb : List JVal → List JVal → Bool
  | [], [] => true
  | x :: xs, y :: ys => jEqb x y && jListEqb xs ys
  | _, _ => false

/-- Python equality on the entries of a JSON object. -/
def jPairsEqb : List (String × JVal) → List (String × JVal) → Bool
  | [], [] => true
  | (k1, v1) :: xs, (k2, v2) :: ys => k1 == k2 && jEqb v1 v2 && jPairsEqb xs ys
  | _, _ => false

end

/-- Lookup of a key in a JSON object's field list (dict indexing). -/
def lookupField (k : String) : List (String × JVal) → Option JVal
  | [] => none
  | (k', v) :: rest => if k' = k then some v else lookupField k rest

/-- Dict-style access on a JSON value; none when the key is missing or
the value is not an object. -/
def jObjGet (k : String) : JVal → Option JVal
  | .obj fields => lookupField k fields
  | _ => none

/-- Python comparison of a JSON value against a string literal, as in
the source's comparisons with the literals on and ok. -/
def jEqStr (v : JVal) (t : String) : Bool :=
  match v with
  | .s u => u == t
  | _ => false

/-- Value of a nonempty all-digit character list, none otherwise. -/
def digitsVal? (cs : List Char) : Option Nat :=
  if cs = [] then none
  else if cs.all Char.isDigit then
    some (cs.foldl (fun acc c => acc * 10 + (c.toNat - 48)) 0)
  else none

/-- Python int() applied to a string: optional surrounding spaces, an
optional sign, then decimal digits; ValueError otherwise. -/
def pyIntStr (t : String) : Except PyErr Int :=
  let cs := ((t.toList.dropWhile (· = ' ')).reverse.dropWhile (· = ' ')).reverse
  match cs with
  | '-' :: ds =>
    match digitsVal? ds with
    | some k => .ok (-(k : Int))
    | none => .error .valueError
  | '+' :: ds =>
    match digitsVal? ds with
    | some k => .ok (k : Int)
    | none => .error .valueError
  | ds =>
    match digitsVal? ds with
    | some k => .ok (k : Int)
    | none => .error .valueError

/-- Python int() applied to a JSON value. -/
def pyInt : JVal → Except PyErr Int
  | .n k => .ok k
  | .b v => .ok (if v then 1 else 0)
  | .s t => pyIntStr t
  | _ => .error .typeError

/-- Python indexing v[i] for the values the protocol code indexes:
IndexError past the end of a list, TypeError on non-sequences. -/
def pyIndex (v : JVal) (i : Nat) : Except PyErr JVal :=
  match v with
  | .arr l =>
    match l.get? i with
    | some x => .ok x
    | none => .error .indexError
  | _ => .error .typeError

/-- Python truthiness of an optional JSON value (None is falsy, empty
containers and empty strings are falsy, zero is falsy). -/
def pyTruthy : Option JVal → Bool
  | none => false
  | some .null => false
  | some (.b v) => v
  | some (.n k) => k != 0
  | some (.s t) => t != ""
  | some (.arr l) => !l.isEmpty
  | some (.obj l) => !l.isEmpty

/-- The mutable property fields of a LightBulb instance
(src/yeelight_controller/device.py lines 42-51); every field starts as
Python None. power and deviceId hold whatever value the protocol
delivered (assigned raw in the source); the numeric fields hold the
result of int() conversions. -/
structure DeviceState where
  power : Option JVal
  brightness : Option Int
  colorMode : Option Int
  colorTemperature : Option Int
  rgb : Option Int
  hue : Option Int
  saturation : Option Int
  deviceId : Option JVal
  name : Option JVal
  fwVer : Option JVal

/-- Fresh device state: all fields None, as in LightBulb.__init__. -/
def initState : DeviceState :=
  { power := none, brightness := none, colorMode := none,
    colorTemperature := none, rgb := none, hue := none,
    saturation := none, deviceId := none, name := none, fwVer := none }

/-- One LightBulb session: the message-id counter (class attribute
current_message_id, line 29), the transition settings captured at
construction (effect name and duration, lines 57-59), and the device
state. -/
structure Session where
  counter : Nat
  effect : String
  duration : Int
  st : DeviceState

/-- Session as built by LightBulb.__init__ with the default arguments:
counter at its initial value 0, effect Effect.smooth (whose name is the
string smooth), duration 500 ms.
The Effect enum lives in the enums module, which is absent from the
sources; its smooth member's name is modelled from the spec (section 8:
params list 16711680, smooth, 500). -/
def initSession : Session :=
  { counter := 0, effect := "smooth", duration := 500, st := initState }

/-- One field update of LightBulb.__process_notification_message
(device.py lines 250-264). Note the source line 259 matches the
misspelled key rbg, not rgb. -/
def applyNotifField (st : DeviceState) : String × JVal → Except PyErr DeviceState
  | (prop, value) =>
    if prop = "power" then .ok { st with power := some value }
    else if prop = "bright" then
      (pyInt value).map fun k => { st with brightness := some k }
    else if prop = "color_mode" then
      (pyInt value).map fun k => { st with colorMode := some k }
    else if prop = "ct" then
      (pyInt value).map fun k => { st with colorTemperature := some k }
    else if prop = "rbg" then
      (pyInt value).map fun k => { st with rgb := some k }
    else if prop = "hue" then
      (pyInt value).map fun k => { st with hue := some k }
    else if prop = "sat" then
      (pyInt value).map fun k => { st with saturation := some k }
    else .ok st

/-- LightBulb.__process_notification_message (device.py lines 243-264):
read message's params entry (KeyError when missing), iterate the
mapping in order and apply the field translation; iterating items() of
a non-mapping raises. -/
def processNotifMsg (st : DeviceState) (message : JVal) : Except PyErr DeviceState :=
  match jObjGet "params" message with
  | none => .error (.keyError "params")
  | some (.obj params) => params.foldlM applyNotifField st
  | some _ => .error .typeError

/-- Outcome that json.loads has on one CRLF-separated segment of a
received buffer: the empty string, a segment that is not valid JSON, or
the parsed value. -/
inductive RawSeg
  | empty
  | malformed
  | parsed (j : JVal)

/-- Outcome of one recvfrom call inside LightBulb.__send_message:
socket.timeout, socket.error (carrying whether the reconnect that the
handler performs manages to establish the TCP connection), or received
data, given as the segment sequence of the buffer. -/
inductive RecvEv
  | timeout
  | sockError (reconnectOk : Bool)
  | data (segs : List RawSeg)

/-- Result of the for-loop over one buffer's segments in
LightBulb.__send_message (device.py lines 216-231): either the early
silent return taken on an error frame, or the end of the loop with the
state as mutated by notification frames and the last result frame whose
id matched the request. -/
inductive SegsOut
  | earlyReturn (st : DeviceState)
  | finished (st : DeviceState) (result : Option JVal)

/-- The for-loop body of LightBulb.__send_message (lines 216-231): skip
empty segments, let json.loads failures escape, silently return on an
error frame (after the external on_error callback), apply notification
frames to the state, and record a result frame whose id equals the sent
message's id; key containment on a non-mapping raises. -/
def processSegments (msg : JVal) (st : DeviceState) (result : Option JVal) :
    List RawSeg → Except PyErr SegsOut
  | [] => .ok (.finished st result)
  | .empty :: rest => processSegments msg st result rest
  | .malformed :: _ => .error .jsonDecodeError
  | .parsed j :: rest =>
    match j with
    | .obj _ =>
      if (jObjGet "error" j).isSome then
        .ok (.earlyReturn st)
      else if (jObjGet "method" j).isSome then
        match processNotifMsg st j with
        | .error e => .error e
        | .ok st' => processSegments msg st' result rest
      else if (jObjGet "result" j).isSome then
        match jObjGet "id" j with
        | none => .error (.keyError "id")
        | some fid =>
          match jObjGet "id" msg with
          | none => .error (.keyError "id")
          | some mid =>
            if jEqb fid mid then processSegments msg st (some j) rest
            else processSegments msg st result rest
      else processSegments msg st result rest
    | _ => .error .typeError

/-- LightBulb.__create_message (device.py lines 267-284): increment the
shared message-id counter and build the command object. -/
def createMessage (s : Session) (method : String) (params : List JVal) :
    Session × JVal :=
  let newId := s.counter + 1
  ({ s with counter := newId },
   .obj [("id", .n (newId : Int)), ("method", .s method), ("params", .arr params)])

/-- Field assignments of LightBulb.__get_props (device.py lines 88-95)
applied to the result list of a get_prop response: power is stored raw,
the six numeric properties through int(). -/
def applyProps (st : DeviceState) (props : JVal) : Except PyErr DeviceState := do
  let p0 ← pyIndex props 0
  let st := { st with power := some p0 }
  let v1 ← pyIndex props 1
  let k1 ← pyInt v1
  let st := { st with brightness := some k1 }
  let v2 ← pyIndex props 2
  let k2 ← pyInt v2
  let st := { st with colorTemperature := some k2 }
  let v3 ← pyIndex props 3
  let k3 ← pyInt v3
  let st := { st with colorMode := some k3 }
  let v4 ← pyIndex props 4
  let k4 ← pyInt v4
  let st := { st with rgb := some k4 }
  let v5 ← pyIndex props 5
  let k5 ← pyInt v5
  let st := { st with hue := some k5 }
  let v6 ← pyIndex props 6
  let k6 ← pyInt v6
  pure { st with saturation := some k6 }

/-- LightBulb.__send_message (device.py lines 199-240), driven by the
scripted socket events. One event is consumed per recvfrom call. A
socket.timeout returns None; a socket.error triggers connect(), whose
success runs __get_props (lines 80-95): a fresh get_prop message is
created and awaited recursively on the remaining events, and a truthy
result has its result entry applied to the state; either way the
handler then returns None. Received data is fed through the segment
loop; when no matching result was captured the while loop performs the
next recvfrom. An exhausted event script stands for a link on which no
further data arrives, so that the pending recvfrom raises
socket.timeout and None is returned. -/
def sendMessage (msg : JVal) (s : Session) : List RecvEv → Except PyErr (Session × Option JVal)
  | [] => .ok (s, none)
  | .timeout :: _ => .ok (s, none)
  | .sockError reconnectOk :: rest =>
    if reconnectOk then
      let (s1, gm) := createMessage s "get_prop"
        [.s "power", .s "bright", .s "ct", .s "color_mode", .s "rgb", .s "hue", .s "sat"]
      match sendMessage gm s1 rest with
      | .error e => .error e
      | .ok (s2, r) =>
        if pyTruthy r then
          match r with
          | some j =>
            match jObjGet "result" j with
            | none => .error (.keyError "result")
            | some props =>
              match applyProps s2.st props with
              | .error e => .error e
              | .ok st' => .ok ({ s2 with st := st' }, none)
          | none => .ok (s2, none)
        else .ok (s2, none)
    else .ok (s, none)
  | .data segs :: rest =>
    match processSegments msg s.st none segs with
    | .error e => .error e
    | .ok (.earlyReturn st') => .ok ({ s with st := st' }, none)
    | .ok (.finished st' result) =>
      match result with
      | some r => .ok ({ s with st := st' }, some r)
      | none => sendMessage msg { s with st := st' } rest

/-- Evaluation of the guard `result and result['result'][0] == 'ok'`
shared by the command methods: truthiness of the returned value, then
dict and index access, then comparison with the literal ok. -/
def resultIsOk (result : Option JVal) : Except PyErr Bool :=
  match result with
  | none => .ok false
  | some r =>
    if pyTruthy (some r) then
      match jObjGet "result" r with
      | none => .error (.keyError "result")
      | some rv =>
        match pyIndex rv 0 with
        | .error e => .error e
        | .ok v => .ok (jEqStr v "ok")
    else .ok false

/-- LightBulb.turn_on (device.py lines 98-106): send set_power with
params on/effect/duration and optimistically set power to on when the
response's first result element is ok. -/
def turnOn (s : Session) (events : List RecvEv) : Except PyErr Session :=
  let (s1, msg) := createMessage s "set_power" [.s "on", .s s.effect, .n s.duration]
  match sendMessage msg s1 events with
  | .error e => .error e
  | .ok (s2, result) =>
    match resultIsOk result with
    | .error e => .error e
    | .ok true => .ok { s2 with st := { s2.st with power := some (.s "on") } }
    | .ok false => .ok s2

/-- LightBulb.turn_off (device.py lines 109-117). -/
def turnOff (s : Session) (events : List RecvEv) : Except PyErr Session :=
  let (s1, msg) := createMessage s "set_power" [.s "off", .s s.effect, .n s.duration]
  match sendMessage msg s1 events with
  | .error e => .error e
  | .ok (s2, result) =>
    match resultIsOk result with
    | .error e => .error e
    | .ok true => .ok { s2 with st := { s2.st with power := some (.s "off") } }
    | .ok false => .ok s2

/-- LightBulb.set_brightness (device.py lines 120-132). -/
def setBrightness (s : Session) (brightness : Int) (events : List RecvEv) :
    Except PyErr Session :=
  let (s1, msg) := createMessage s "set_bright" [.n brightness, .s s.effect, .n s.duration]
  match sendMessage msg s1 events with
  | .error e => .error e
  | .ok (s2, result) =>
    match resultIsOk result with
    | .error e => .error e
    | .ok true => .ok { s2 with st := { s2.st with brightness := some brightness } }
    | .ok false => .ok s2

/-- The power test of LightBulb.toggle (line 143): Python compares the
power attribute with the string on; None and any non-string compare
unequal. -/
def powerIsOn (st : DeviceState) : Bool :=
  match st.power with
  | some v => jEqStr v "on"
  | none => false

/-- LightBulb.toggle (device.py lines 135-146): on a confirmed ok
result, power becomes off when it was exactly the string on, and on in
every other case (including the uninitialized None). -/
def toggle (s : Session) (events : List RecvEv) : Except PyErr Session :=
  let (s1, msg) := createMessage s "toggle" []
  match sendMessage msg s1 events with
  | .error e => .error e
  | .ok (s2, result) =>
    match resultIsOk result with
    | .error e => .error e
    | .ok true =>
      if powerIsOn s2.st then
        .ok { s2 with st := { s2.st with power := some (.s "off") } }
      else
        .ok { s2 with st := { s2.st with power := some (.s "on") } }
    | .ok false => .ok s2

/-- LightBulb.set_temperature (device.py lines 149-161). -/
def setTemperature (s : Session) (colorTemp : Int) (events : List RecvEv) :
    Except PyErr Session :=
  let (s1, msg) := createMessage s "set_ct_abx" [.n colorTemp, .s s.effect, .n s.duration]
  match sendMessage msg s1 events with
  | .error e => .error e
  | .ok (s2, result) =>
    match resultIsOk result with
    | .error e => .error e
    | .ok true => .ok { s2 with st := { s2.st with colorTemperature := some colorTemp } }
    | .ok false => .ok s2

/-- The color packing of LightBulb.set_rgb (device.py line 172). -/
def setRgbColor (red green blue : Int) : Int :=
  red * 65536 + green * 256 + blue

/-- The command message built by LightBulb.set_rgb (lines 172-176). -/
def setRgbMessage (s : Session) (red green blue : Int) : Session × JVal :=
  createMessage s "set_rgb" [.n (setRgbColor red green blue), .s s.effect, .n s.duration]

/-- LightBulb.set_rgb (device.py lines 164-179): pack the color, send
set_rgb, and on a confirmed ok result store the packed color. -/
def setRgb (s : Session) (red green blue : Int) (events : List RecvEv) :
    Except PyErr Session :=
  let (s1, msg) := setRgbMessage s red green blue
  match sendMessage msg s1 events with
  | .error e => .error e
  | .ok (s2, result) =>
    match resultIsOk result with
    | .error e => .error e
    | .ok true =>
      .ok { s2 with st := { s2.st with rgb := some (setRgbColor red green blue) } }
    | .ok false => .ok s2

/-- LightBulb.set_hsv (device.py lines 182-196). -/
def setHsv (s : Session) (hue sat : Int) (events : List RecvEv) :
    Except PyErr Session :=
  let (s1, msg) := createMessage s "set_hsv" [.n hue, .n sat, .s s.effect, .n s.duration]
  match sendMessage msg s1 events with
  | .error e => .error e
  | .ok (s2, result) =>
    match resultIsOk result with
    | .error e => .error e
    | .ok true =>
      .ok { s2 with st := { s2.st with hue := some hue, saturation := some sat } }
    | .ok false => .ok s2

/-- Ids produced by repeated calls of LightBulb.__create_message from a
given session: the id embedded in each created message is the freshly
incremented counter. -/
def allocIds (s : Session) : Nat → List Nat
  | 0 => []
  | n + 1 =>
    let s' := (createMessage s "get_prop" []).1
    s'.counter :: allocIds s' n

/-- Prepend a character to the first segment of a split result, the
recursive step of the leftmost-first string split. -/
def consHead (c : Char) : List (List Char) → List (List Char)
  | [] => [[c]]
  | seg :: segs => (c :: seg) :: segs

/-- Python str.split with a fixed two-character separator (the CRLF
frame delimiter, the colon-space header separator, the double slash of
the location URL): leftmost-first scan, keeping empty segments. -/
def split2 (x y : Char) : List Char → List (List Char)
  | [] => [[]]
  | [c] => [[c]]
  | a :: b :: rest =>
    if a = x ∧ b = y then [] :: split2 x y rest
    else consHead a (split2 x y (b :: rest))

/-- Python str.split with a one-character separator (the colon of
host:port). -/
def split1 (x : Char) : List Char → List (List Char)
  | [] => [[]]
  | c :: rest =>
    if c = x then [] :: split1 x rest else consHead c (split1 x rest)

/-- The nonempty CRLF-separated segments of one received buffer: the
split performed at device.py line 215 combined with the emptiness test
at line 217 that decides which segments reach json.loads. -/
def crlfSegments (chunk : List Char) : List (List Char) :=
  (split2 '\r' '\n' chunk).filter (fun seg => seg ≠ [])

/-- Segments produced when the byte stream arrives cut into the given
read chunks: LightBulb.__send_message splits every recvfrom buffer
independently and keeps no trailing fragment between reads. -/
def decodeChunks (chunks : List (List Char)) : List (List Char) :=
  chunks.flatMap crlfSegments

/-- Segments produced when the whole byte stream is decoded at once. -/
def decodeStream (stream : List Char) : List (List Char) :=
  crlfSegments stream

/-- Python dict assignment headers[name] = value: overwrite the value
in place when the key exists, append otherwise. -/
def dictInsert (k v : List Char) :
    List (List Char × List Char) → List (List Char × List Char)
  | [] => [(k, v)]
  | (k', v') :: rest =>
    if k' = k then (k, v) :: rest else (k', v') :: dictInsert k v rest

/-- Python dict lookup, none when the key is absent. -/
def dictGet (k : List Char) : List (List Char × List Char) → Option (List Char)
  | [] => none
  | (k', v) :: rest => if k' = k then some v else dictGet k rest

/-- LightBulb.parse_search_response (device.py lines 287-308): split the
datagram into CRLF rows; when the first row is the 200-OK status line,
every row that splits on colon-space into exactly two parts becomes a
header, its name lower-cased. -/
def parseSearchResponse (message : List Char) : List (List Char × List Char) :=
  let rows := split2 '\r' '\n' message
  match rows with
  | [] => []
  | r0 :: _ =>
    if r0 = "HTTP/1.1 200 OK".toList then
      rows.foldl (fun headers row =>
        match split2 ':' ' ' row with
        | [a, b] => dictInsert (a.map Char.toLower) b headers
        | _ => headers) []
    else []

/-- One iteration of the discovery loop, as seen at its recvfrom call:
either socket.timeout (carrying the value that time.time() minus the
start time has at the subsequent budget check) or a received datagram. -/
inductive DiscoverEv
  | timeout (elapsed : Int)
  | data (bytes : List Char)

/-- Result of the discovery loop: a device (its id header and the host
part of its location header; the subsequent LightBulb construction is
connection I/O outside this model), the None returned when the search
budget is exhausted, or an event script that ended while the loop still
waited for a datagram. -/
inductive DiscoverOutcome
  | found (deviceId : List Char) (ip : List Char)
  | notFound
  | blocked
deriving DecidableEq

/-- LightBulb.discover (device.py lines 311-354), driven by scripted
socket events. A timeout returns None once the elapsed time reaches the
budget and otherwise loops; a received datagram is parsed and the
location and id headers are read with Python dict indexing, so a
missing header raises KeyError, and a location without a double slash
raises IndexError; nothing after a received datagram is retried. -/
def discover (searchTimeout : Int) : List DiscoverEv → Except PyErr DiscoverOutcome
  | [] => .ok .blocked
  | .timeout elapsed :: rest =>
    if elapsed ≥ searchTimeout then .ok .notFound
    else discover searchTimeout rest
  | .data bytes :: _ =>
    let parsed := parseSearchResponse bytes
    match dictGet "location".toList parsed with
    | none => .error (.keyError "location")
    | some loc =>
      match (split2 '/' '/' loc).get? 1 with
      | none => .error .indexError
      | some seg =>
        let ip := (split1 ':' seg).headD []
        match dictGet "id".toList parsed with
        | none => .error (.keyError "id")
        | some did => .ok (.found did ip)

/-! ## Fixtures: concrete frames and sessions used by individual claims -/

/-- A success response frame with the given id: result list containing
the single string ok. -/
def okResultFrame (i : Int) : JVal :=
  .obj [("id", .n i), ("result", .arr [.s "ok"])]

/-- An error response frame as sent by the device for a failed
command. -/
def errFrame : JVal :=
  .obj [("id", .n 1), ("error", .obj [("code", .n (-1)), ("message", .s "bad")])]

/-- A get_prop response frame carrying a full property snapshot in the
order requested by LightBulb.__get_props. -/
def propsResultFrame (i : Int) (p : JVal) (b ct cm r h sa : Int) : JVal :=
  .obj [("id", .n i), ("result", .arr [p, .n b, .n ct, .n cm, .n r, .n h, .n sa])]

/-- Session whose brightness is known to be 50 before a command runs. -/
def c9Start : Session := { initSession with st := { initState with brightness := some 50 } }

/-- Event script for a turn_on call that hits a socket.error: the
reconnect succeeds, and the device answers the reconnect's get_prop
request (id 2) with a snapshot whose brightness is 70. -/
def c9Events : List RecvEv :=
  [.sockError true, .data [.parsed (propsResultFrame 2 (.s "on") 70 4000 2 16711680 0 100)]]

/-- A discovery reply with a valid status line and an id header but no
location header. -/
def c6BadReply : List Char := "HTTP/1.1 200 OK\r\nid: 0x1234".toList

/-- A discovery reply carrying only the two headers the code actually
reads: location and id. -/
def c6MinimalReply : List Char :=
  "HTTP/1.1 200 OK\r\nLocation: yeelight://192.168.1.50:55443\r\nid: 0xabc".toList

/-! ## Helper lemmas -/

/-- A left-to-right split never produces the empty list of segments. -/
theorem consHead_ne_nil (c : Char) (l : List (List Char)) : consHead c l ≠ [] := by
  cases l <;> simp [consHead]

/-- consHead only touches the head segment, so it commutes with
appending further segments to a nonempty split. -/
theorem consHead_append (c : Char) (q r : List (List Char)) (hq : q ≠ []) :
    consHead c (q ++ r) = consHead c q ++ r := by
  cases q with
  | nil => exact absurd rfl hq
  | cons s ss => simp [consHead]

/-- Key property of the two-character split for distinct separator
characters: a string ending in the separator splits into a nonempty
prefix list plus a final empty segment, and appending a continuation
swaps that final empty segment for the continuation's own split. -/
theorem split2_complete_aux (x y : Char) (hxy : x ≠ y) :
    ∀ (n : Nat) (u : List Char), u.length ≤ n →
      ∃ q, q ≠ [] ∧ split2 x y (u ++ [x, y]) = q ++ [[]] ∧
        ∀ s2, split2 x y (u ++ x :: y :: s2) = q ++ split2 x y s2 := by
  intro n
  induction n with
  | zero =>
    intro u hu
    have hu0 : u = [] := List.length_eq_zero.mp (Nat.le_zero.mp hu)
    subst hu0
    refine ⟨[[]], by simp, ?_, fun s2 => ?_⟩
    · show split2 x y [x, y] = [[]] ++ [[]]
      simp [split2]
    · show split2 x y (x :: y :: s2) = [[]] ++ split2 x y s2
      simp [split2]
  | succ n ih =>
    intro u hu
    match u with
    | [] => exact ih [] (by simp)
    | [c] =>
      have hcxy : ¬(c = x ∧ x = y) := fun hxx => hxy hxx.2
      refine ⟨[[c]], by simp, ?_, fun s2 => ?_⟩
      · show split2 x y [c, x, y] = [[c]] ++ [[]]
        simp [split2, hcxy, consHead]
      · show split2 x y (c :: x :: y :: s2) = [[c]] ++ split2 x y s2
        simp [split2, hcxy, consHead]
    | a :: b :: u' =>
      by_cases hab : a = x ∧ b = y
      · obtain ⟨q', hq', h1, h2⟩ := ih u' (by simp only [List.length_cons] at hu; omega)
        rcases hab with ⟨rfl, rfl⟩
        refine ⟨[] :: q', by simp, ?_, fun s2 => ?_⟩
        · show split2 a b (a :: b :: (u' ++ [a, b])) = ([] :: q') ++ [[]]
          simp [split2, h1]
        · show split2 a b (a :: b :: (u' ++ a :: b :: s2)) = ([] :: q') ++ split2 a b s2
          simp [split2, h2 s2]
      · obtain ⟨q', hq', h1, h2⟩ := ih (b :: u') (by simp only [List.length_cons] at hu ⊢; omega)
        refine ⟨consHead a q', consHead_ne_nil a q', ?_, fun s2 => ?_⟩
        · show split2 x y (a :: (b :: u' ++ [x, y])) = consHead a q' ++ [[]]
          rw [show a :: (b :: u' ++ [x, y]) = a :: b :: (u' ++ [x, y]) from rfl]
          rw [split2, if_neg hab]
          rw [show b :: (u' ++ [x, y]) = (b :: u') ++ [x, y] from rfl, h1]
          exact consHead_append a q' [[]] hq'
        · show split2 x y (a :: (b :: u' ++ x :: y :: s2)) = consHead a q' ++ split2 x y s2
          rw [show a :: (b :: u' ++ x :: y :: s2) = a :: b :: (u' ++ x :: y :: s2) from rfl]
          rw [split2, if_neg hab]
          rw [show b :: (u' ++ x :: y :: s2) = (b :: u') ++ x :: y :: s2 from rfl, h2 s2]
          exact consHead_append a q' (split2 x y s2) hq'

/-- Closure of split2_complete_aux over the length bound. -/
theorem split2_complete (x y : Char) (hxy : x ≠ y) (u : List Char) :
    ∃ q, q ≠ [] ∧ split2 x y (u ++ [x, y]) = q ++ [[]] ∧
      ∀ s2, split2 x y (u ++ x :: y :: s2) = q ++ split2 x y s2 :=
  split2_complete_aux x y hxy u.length u le_rfl

/-- The nonempty segments of a buffer distribute over concatenation
when the first part ends exactly at a frame boundary (a trailing CRLF
delimiter). -/
theorem crlfSegments_complete_append (u s : List Char) :
    crlfSegments ((u ++ ['\r', '\n']) ++ s) =
      crlfSegments (u ++ ['\r', '\n']) ++ crlfSegments s := by
  obtain ⟨q, hq, h1, h2⟩ := split2_complete '\r' '\n' (by decide) u
  unfold crlfSegments
  rw [show (u ++ ['\r', '\n']) ++ s = u ++ '\r' :: '\n' :: s by simp, h2 s, h1]
  rw [List.filter_append, List.filter_append]
  simp

/-- Empty segments are skipped by the receive loop without any other
effect. -/
theorem processSegments_replicate_empty (msg : JVal) (st : DeviceState) (res : Option JVal)
    (n : Nat) (l : List RawSeg) :
    processSegments msg st res (List.replicate n .empty ++ l) = processSegments msg st res l := by
  induction n with
  | zero => rfl
  | succ n ih => simpa [List.replicate_succ, processSegments] using ih

/-- The ids of consecutive created messages form the arithmetic
progression that starts right above the session's counter. -/
theorem allocIds_eq (n : Nat) : ∀ s : Session, allocIds s n =
    (List.range n).map (fun i => s.counter + 1 + i) := by
  induction n with
  | zero => intro s; rfl
  | succ n ih =>
    intro s
    simp only [allocIds, createMessage, ih, List.range_succ_eq_map, List.map_cons,
               List.map_map]
    have hf : ((fun i => s.counter + 1 + i) ∘ Nat.succ) =
        (fun i => s.counter + 1 + 1 + i) := by
      funext i
      simp only [Function.comp_apply]
      omega
    rw [hf]

/-! ## Claim theorems -/

/-- C1: the claim states the fixed notification translation maps the
param name rgb to the rgb state field and that every name outside the
translation set is ignored. The code disagrees on one point: line 259
of device.py matches the misspelled name rbg. Evaluated at the claim's
own example, a notification whose params mapping carries rgb with value
16711680 leaves the whole device state (rgb included) unchanged, while
the misspelled name rbg, which lies outside the claimed translation
set, does update the rgb field. Since the surrounding code itself uses
the spelling rgb (the get_prop request two methods above, the set_rgb
command), the branch on rbg is a slip in the code and dead in practice:
the claim reflects the intent, the code is wrong. -/
theorem c1_rgb_notification_ignored_rbg_updates :
    processNotifMsg initState
        (.obj [("method", .s "props"), ("params", .obj [("rgb", .n 16711680)])]) =
      .ok initState
    ∧ processNotifMsg initState
        (.obj [("method", .s "props"), ("params", .obj [("rbg", .n 16711680)])]) =
      .ok { initState with rgb := some 16711680 } :=
  ⟨rfl, rfl⟩

/-- C2: a confirmed ok result does apply the optimistic power update
matching the request (first two conjuncts), and an error frame does
leave every field of the device state unchanged; but no ProtocolError
surfaces: on an error frame the receive loop logs, fires the external
on_error callback, and silently returns None (third conjunct: the call
ends in a normal ok outcome whose session differs from the start only
by the consumed message id), so the caller cannot distinguish the
failed command from one that got no response. The spec itself flags
this silent return-with-no-value as a source bug (design notes), so the
claim is the intent and the code a slip. -/
theorem c2_error_frame_silent_return :
    turnOn initSession [.data [.parsed (okResultFrame 1)]] =
      .ok { initSession with
            counter := 1,
            st := { initState with power := some (.s "on") } }
    ∧ turnOff initSession [.data [.parsed (okResultFrame 1)]] =
      .ok { initSession with
            counter := 1,
            st := { initState with power := some (.s "off") } }
    ∧ turnOn initSession [.data [.parsed errFrame]] = .ok { initSession with counter := 1 } :=
  ⟨rfl, rfl, rfl⟩

/-- C3: for every device state, a notification whose params mapping is
exactly the entry bright with value 42 yields the state whose
brightness is 42 and whose other nine fields are the prior values: the
right-hand side updates the brightness field alone. -/
theorem c3_bright_notification_updates_only_brightness (st : DeviceState) :
    processNotifMsg st (.obj [("method", .s "props"), ("params", .obj [("bright", .n 42)])]) =
      .ok { st with brightness := some 42 } :=
  rfl

/-- C4: set_rgb with arguments 255 0 0 under the default session builds
a set_rgb command whose params list is 16711680, smooth, 500; for all
red green blue the packed value in the params list is
red * 65536 + green * 256 + blue; and a matching ok result frame makes
the command store exactly that packed value in the rgb field. -/
theorem c4_set_rgb_packs_and_updates (s : Session) (red green blue : Int) :
    jObjGet "method" (setRgbMessage initSession 255 0 0).2 = some (.s "set_rgb")
    ∧ jObjGet "params" (setRgbMessage initSession 255 0 0).2 =
        some (.arr [.n 16711680, .s "smooth", .n 500])
    ∧ jObjGet "params" (setRgbMessage s red green blue).2 =
        some (.arr [.n (red * 65536 + green * 256 + blue), .s s.effect, .n s.duration])
    ∧ setRgb s red green blue [.data [.parsed (okResultFrame ((s.counter + 1 : Nat) : Int))]] =
        .ok { s with
              counter := s.counter + 1,
              st := { s.st with rgb := some (red * 65536 + green * 256 + blue) } } := by
  refine ⟨rfl, rfl, rfl, ?_⟩
  simp [setRgb, setRgbMessage, setRgbColor, createMessage, sendMessage, processSegments,
        okResultFrame, jObjGet, lookupField, resultIsOk, pyTruthy, pyIndex, jEqStr, jEqb]

/-- C5: from any session, the ids embedded in any number of
consecutively created messages are pairwise strictly increasing in
order of allocation (each id exceeds every earlier one) and no id
occurs twice. -/
theorem c5_message_ids_strictly_increasing_nodup (s : Session) (n : Nat) :
    (allocIds s n).Pairwise (· < ·) ∧ (allocIds s n).Nodup := by
  have h := allocIds_eq n s
  constructor
  · rw [h, List.pairwise_map]
    exact (List.pairwise_lt_range n).imp (by omega)
  · rw [h]
    exact List.Nodup.map (fun a b hab => by omega) (List.nodup_range n)

/-- C6 counterexample: a discovery reply whose parsed headers lack the
location entry makes discover raise KeyError instead of treating the
attempt as not-found and retrying: with a later timeout event available
past the whole budget, the outcome is the exception, not the NotFound
return that the pure-timeout script produces under the same budget. -/
theorem c6_missing_location_header_raises :
    discover 20 [.data c6BadReply, .timeout 21] = .error (.keyError "location")
    ∧ discover 20 [.timeout 21] = .ok .notFound :=
  ⟨rfl, rfl⟩

/-- C6 amended: a received reply whose parsed headers lack location
makes discover fail with an uncaught KeyError, never retrying; only
per-attempt socket timeouts are retried, and once the elapsed time
reaches the search budget the probe returns None (the not-found
outcome); headers beyond location and id are not required at all: a
reply carrying just these two succeeds. -/
theorem c6_discover_behavior (T : Int) (bytes : List Char) (rest : List DiscoverEv) (e : Int)
    (hloc : dictGet "location".toList (parseSearchResponse bytes) = none) :
    discover T (.data bytes :: rest) = .error (.keyError "location")
    ∧ (e < T → discover T (.timeout e :: rest) = discover T rest)
    ∧ (T ≤ e → discover T (.timeout e :: rest) = .ok .notFound)
    ∧ discover T (.data c6MinimalReply :: rest) =
        .ok (.found "0xabc".toList "192.168.1.50".toList) := by
  refine ⟨?_, fun he => ?_, fun he => ?_, ?_⟩
  · have hloc' : dictGet ['l', 'o', 'c', 'a', 't', 'i', 'o', 'n'] (parseSearchResponse bytes) =
        none := hloc
    simp [discover, hloc']
  · have hge : ¬ e ≥ T := by omega
    simp [discover, hge]
  · have hge : e ≥ T := by omega
    simp [discover, hge]
  · rfl

/-- C6 witness: the amended discovery behavior instantiated at budget
20, the concrete header-less reply, and concrete elapsed times 5 and
25. -/
theorem c6_discover_behavior_witness :
    discover 20 [DiscoverEv.data c6BadReply] = .error (.keyError "location") ∧
    discover 20 [DiscoverEv.timeout 5] = discover 20 [] ∧
    discover 20 [DiscoverEv.timeout 25] = .ok DiscoverOutcome.notFound := by
  obtain ⟨h1, h2, -, -⟩ := c6_discover_behavior 20 c6BadReply [] 5 (by rfl)
  obtain ⟨-, -, h3, -⟩ := c6_discover_behavior 20 c6BadReply [] 25 (by rfl)
  exact ⟨h1, h2 (by norm_num), h3 (by norm_num)⟩

/-- C7 counterexample: the receive loop splits every read chunk
independently and keeps no trailing fragment, so a frame whose bytes
straddle two reads is never delivered: the stream consisting of the
frame abc and its delimiter, read as the two chunks ab and c-CRLF,
decodes chunkwise into the two bogus segments ab and c, while decoding
the concatenated stream yields the single frame abc. -/
theorem c7_straddling_frame_not_delivered :
    decodeChunks [['a', 'b'], ['c', '\r', '\n']] = [['a', 'b'], ['c']]
    ∧ decodeStream (['a', 'b'] ++ ['c', '\r', '\n']) = [['a', 'b', 'c']]
    ∧ decodeChunks [['a', 'b'], ['c', '\r', '\n']] ≠
        decodeStream (['a', 'b'] ++ ['c', '\r', '\n']) :=
  ⟨rfl, rfl, by decide⟩

/-- C7 amended: the code carries no remainder between reads, so
chunkwise decoding agrees with whole-stream decoding exactly when every
read chunk is empty or ends at a frame boundary, that is with the CRLF
delimiter; under that alignment the segment sequences coincide. -/
theorem c7_chunkwise_decode_agrees_on_frame_boundaries (chunks : List (List Char))
    (hc : ∀ c ∈ chunks, c = [] ∨ ∃ u, c = u ++ ['\r', '\n']) :
    decodeChunks chunks = decodeStream chunks.flatten := by
  induction chunks with
  | nil => rfl
  | cons c cs ih =>
    have hcs : ∀ d ∈ cs, d = [] ∨ ∃ u, d = u ++ ['\r', '\n'] :=
      fun d hd => hc d (List.mem_cons_of_mem c hd)
    have hc0 := hc c (List.mem_cons_self c cs)
    simp only [decodeChunks, List.flatMap_cons, List.flatten_cons] at *
    rcases hc0 with rfl | ⟨u, rfl⟩
    · have h0 : crlfSegments [] = [] := rfl
      rw [h0, List.nil_append, List.nil_append]
      exact ih hcs
    · show crlfSegments (u ++ ['\r', '\n']) ++ cs.flatMap crlfSegments =
        decodeStream ((u ++ ['\r', '\n']) ++ cs.flatten)
      rw [show decodeStream ((u ++ ['\r', '\n']) ++ cs.flatten) =
        crlfSegments ((u ++ ['\r', '\n']) ++ cs.flatten) from rfl]
      rw [crlfSegments_complete_append, ih hcs]
      rfl

/-- C7 witness: boundary-aligned chunks a-CRLF and b-CRLF decode
chunkwise the same as the concatenated stream. -/
theorem c7_chunkwise_decode_agrees_witness :
    decodeChunks [['a', '\r', '\n'], ['b', '\r', '\n']] =
      decodeStream ([['a', '\r', '\n'], ['b', '\r', '\n']] : List (List Char)).flatten := by
  refine c7_chunkwise_decode_agrees_on_frame_boundaries _ ?_
  intro c hcm
  simp only [List.mem_cons, List.not_mem_nil, or_false] at hcm
  rcases hcm with rfl | rfl
  · exact Or.inr ⟨['a'], rfl⟩
  · exact Or.inr ⟨['b'], rfl⟩

/-- C8 counterexample: a buffer whose first segment is not valid JSON
makes the whole command call fail with the uncaught decode exception,
although a well-formed matching success frame follows in the same
buffer; nothing after the malformed segment is processed and no
recovery happens. -/
theorem c8_malformed_segment_raises_out :
    turnOn initSession [.data [.malformed, .parsed (okResultFrame 1)]] =
      .error .jsonDecodeError :=
  rfl

/-- C8 amended: only empty segments are skipped: a buffer of empty
segments is processed as if the loop went straight to the next read
(second conjunct); the first non-empty segment that is not valid JSON
raises json.JSONDecodeError out of the command call, whatever follows
it (first conjunct). There is no per-segment MalformedFrame
recovery. -/
theorem c8_malformed_segment_behavior (msg : JVal) (s : Session) (n : Nat)
    (post : List RawSeg) (events : List RecvEv) :
    sendMessage msg s (.data (List.replicate n .empty ++ .malformed :: post) :: events) =
      .error .jsonDecodeError
    ∧ sendMessage msg s (.data (List.replicate n .empty) :: events) =
        sendMessage msg s events := by
  constructor
  · simp [sendMessage, processSegments_replicate_empty, processSegments]
  · have h := processSegments_replicate_empty msg s.st none n []
    rw [List.append_nil] at h
    simp [sendMessage, h, processSegments]

/-- C9 counterexample: a turn_on call that suffers a socket.error does
not leave the device state unchanged: the handler reconnects, the
reconnect issues get_prop, and the response snapshot overwrites every
property field, here taking brightness from 50 to 70, while the call
itself ends in a normal None return. -/
theorem c9_connection_lost_refreshes_state :
    turnOn c9Start c9Events =
      .ok { c9Start with
            counter := 2,
            st := { c9Start.st with
                    power := some (.s "on"), brightness := some 70,
                    colorTemperature := some 4000, colorMode := some 2,
                    rgb := some 16711680, hue := some 0, saturation := some 100 } }
    ∧ c9Start.st.brightness = some 50 :=
  ⟨rfl, rfl⟩

/-- C9 amended: on a response timeout the command returns without any
change to the device state; on a connection loss no optimistic update
is applied either, but the synchronous reconnect issues get_prop, and
when the device answers, its snapshot overwrites the seven tracked
property fields; when the reconnect itself fails the state is
untouched. In every case the failure is reported only as an absent
result, not as an exception. -/
theorem c9_no_optimistic_update_on_failure (s : Session) (p : JVal) (b ct cm r h sa : Int) :
    turnOn s [.timeout] = .ok { s with counter := s.counter + 1 }
    ∧ turnOn s [.sockError false] = .ok { s with counter := s.counter + 1 }
    ∧ turnOn s [.sockError true,
        .data [.parsed (propsResultFrame ((s.counter + 1 + 1 : Nat) : Int) p b ct cm r h sa)]] =
      .ok { s with
            counter := s.counter + 1 + 1,
            st := { s.st with
                    power := some p, brightness := some b,
                    colorTemperature := some ct, colorMode := some cm,
                    rgb := some r, hue := some h, saturation := some sa } } := by
  refine ⟨rfl, rfl, ?_⟩
  simp [turnOn, createMessage, sendMessage, processSegments, propsResultFrame, jObjGet,
        lookupField, resultIsOk, pyTruthy, pyIndex, jEqStr, jEqb, applyProps, pyInt,
        Bind.bind, Except.bind, Pure.pure, Except.pure]

/-- C10: toggle under a confirmed ok result sets power to off exactly
when it was the string on, and to on in every other case; the second
and third conjuncts spell out that the uninitialized None power counts
as not-on while the string on counts as on, so toggling from the
unknown state resolves it to on. -/
theorem c10_toggle_resolves_unknown_power_to_on (s : Session) :
    toggle s [.data [.parsed (okResultFrame ((s.counter + 1 : Nat) : Int))]] =
      .ok { s with
            counter := s.counter + 1,
            st := { s.st with power := some (.s (if powerIsOn s.st then "off" else "on")) } }
    ∧ powerIsOn { s.st with power := none } = false
    ∧ powerIsOn { s.st with power := some (.s "on") } = true := by
  refine ⟨?_, rfl, ?_⟩
  · cases hb : powerIsOn s.st <;>
      simp [toggle, createMessage, sendMessage, processSegments, okResultFrame, jObjGet,
            lookupField, resultIsOk, pyTruthy, pyIndex, jEqStr, jEqb, hb]
  · simp [powerIsOn, jEqStr]
